import Mathlib

/-
Verification development for the ip-rep-checker program
(src/ip-rep-checker.py). The script resolves the public IP address,
queries the AbuseIPDB reputation endpoint, classifies the abuse
confidence score into a risk tier, renders a fixed-layout text report
and writes it to disk.

Modelling conventions:
- JSON dictionaries become structures of Option fields; a missing key
  is none. The outer response dictionary is ApiResponse: the optional
  key named data plus a flag recording whether any other key is
  present, which is exactly what Python truthiness of the dictionary
  observes.
- Effects (network calls, directory creation, file writes, terminal
  prints) become an explicit Event trace. Exception text interpolated
  into error messages is outside the model, so error prints carry the
  literal message up to the interpolation point.
- The call datetime.now() inside save_results_to_file is modelled as
  the explicit timestamp input now, following the contract
  render(ip, record, timestamp).
- File-system failures are modelled by the flag ioOk: when it is
  false the try block raises, the except branch prints and returns
  False; the partially performed effects of a failed write are
  abstracted away.
-/

namespace IpRepChecker

/- Terminal color escape codes, from the Colors class of the source. -/
namespace Colors

def GREEN : String := "\x1b[92m"

def YELLOW : String := "\x1b[93m"

def RED : String := "\x1b[91m"

def BLUE : String := "\x1b[94m"

def BOLD : String := "\x1b[1m"

def END : String := "\x1b[0m"

end Colors

/-- One historical abuse report, as read by the source: the key
reportedAt (string, may be missing) and the key categories (list of
integer category codes, may be missing, defaulting to the empty
list). -/
structure ReportEntry where
  reportedAt : Option String
  categories : List Int
deriving DecidableEq

/-- The reputation record under the data key of the lookup response.
Every field the source reads is optional; a missing key is none. -/
structure ReputationInfo where
  abuseConfidenceScore : Option Int
  countryName : Option String
  countryCode : Option String
  isp : Option String
  domain : Option String
  usageType : Option String
  totalReports : Option Int
  numDistinctUsers : Option Int
  lastReportedAt : Option String
  isWhitelisted : Option Bool
  reports : Option (List ReportEntry)
deriving DecidableEq

/-- The whole JSON body returned by the lookup call: the optional key
named data, plus a flag recording whether the dictionary holds any
other key. Python truthiness of the dictionary is: some key is
present. -/
structure ApiResponse where
  data : Option ReputationInfo
  hasOtherKeys : Bool
deriving DecidableEq

/-- Python truthiness of the response dictionary: it is non-empty. -/
def isTruthy (r : ApiResponse) : Bool :=
  r.data.isSome || r.hasOtherKeys

/-- Risk classification of the abuse confidence score, transcribed
from the if chain at lines 89 to 96 of the source. -/
def classify (score : Int) : String :=
  if score = 0 then "CLEAN"
  else if score < 25 then "LOW RISK"
  else if score < 75 then "MODERATE RISK"
  else "HIGH RISK"

/-- Python string repetition, as in the banner lines of the source. -/
def repeatStr (s : String) (n : Nat) : String :=
  String.join (List.replicate n s)

/-- The banner line of equals signs. -/
def bar : String := repeatStr "=" 60

/-- Rendering of one report entry, from line 115 to 116 of the
source: the reportedAt value (default N/A), a colon, and the category
codes stringified and joined with a comma and a space. -/
def renderEntry (r : ReportEntry) : String :=
  "  - " ++ r.reportedAt.getD "N/A" ++ ": " ++
    String.intercalate ", " (r.categories.map toString) ++ "\n"

/-- The Recent Reports section, from lines 112 to 116 of the source:
emitted only when the reports value is truthy (present and
non-empty), listing the first five entries in order. -/
def reportsSection (info : ReputationInfo) : String :=
  match info.reports with
  | some (r :: rs) =>
      "\nRecent Reports:\n" ++ String.join (((r :: rs).take 5).map renderEntry)
  | _ => ""

/-- The full report text written when the payload carries a data
object, transcribed write by write from lines 80 to 118 of the
source. -/
def renderInfo (ip_address : String) (info : ReputationInfo) (now : String) : String :=
  let score := info.abuseConfidenceScore.getD 0
  let status := classify score
  bar ++ "\n" ++
  "IP REPUTATION REPORT\n" ++
  bar ++ "\n\n" ++
  "IP Address: " ++ ip_address ++ "\n" ++
  "Check Date: " ++ now ++ "\n\n" ++
  "Reputation Status: " ++ status ++ "\n" ++
  "Abuse Confidence Score: " ++ toString score ++ "%\n\n" ++
  "Country: " ++ info.countryName.getD "Unknown" ++ " (" ++ info.countryCode.getD "N/A" ++ ")\n" ++
  "ISP: " ++ info.isp.getD "Unknown" ++ "\n" ++
  "Domain: " ++ info.domain.getD "N/A" ++ "\n" ++
  "Usage Type: " ++ info.usageType.getD "Unknown" ++ "\n" ++
  "Total Reports: " ++ toString (info.totalReports.getD 0) ++ "\n" ++
  "Distinct Users Reported: " ++ toString (info.numDistinctUsers.getD 0) ++ "\n" ++
  "Last Reported: " ++ info.lastReportedAt.getD "Never" ++ "\n" ++
  "Whitelisted: " ++ (if info.isWhitelisted.getD false then "Yes" else "No") ++ "\n" ++
  reportsSection info ++
  "\n" ++ bar ++ "\n"

/-- The text that ends up in the report file, as a function of the
inputs. The guard at line 74 of the source, not data or the data key
absent, selects the single no-data line; a dictionary whose data key
is present is necessarily truthy, so the branch reduces to the match
below. -/
def renderReport (ip_address : String) (data : Option ApiResponse) (now : String) : String :=
  match data with
  | some { data := some info, hasOtherKeys := _ } => renderInfo ip_address info now
  | _ => "No data received from API\n"

/-- Observable effects of a run: the two outbound HTTP calls,
directory creation, a file write carrying the full written contents,
and terminal prints. -/
inductive Event where
  | netResolve : Event
  | netLookup : String → Event
  | mkdirOutput : String → Event
  | fileWrite : String → String → Event
  | printLine : String → Event
deriving DecidableEq

/-- Test for a file-system event: a directory creation or a file
write. -/
def isFsEvent : Event → Bool
  | Event.mkdirOutput _ => true
  | Event.fileWrite _ _ => true
  | _ => false

/-- Test for a network event: the resolver call or the lookup
call. -/
def isNetworkEvent : Event → Bool
  | Event.netResolve => true
  | Event.netLookup _ => true
  | _ => false

/-- File contents of a file-write event. -/
def fileWriteOf : Event → Option (String × String)
  | Event.fileWrite p c => some (p, c)
  | _ => none

/-- File writes of a trace, with their paths and contents. -/
def writtenFiles (es : List Event) : List (String × String) :=
  es.filterMap fileWriteOf

/-- File-system events of a trace: directory creations and file
writes. -/
def fsEvents (es : List Event) : List Event :=
  es.filter isFsEvent

/-- Network events of a trace: the resolver call and the lookup
call. -/
def networkCalls (es : List Event) : List Event :=
  es.filter isNetworkEvent

/-- Environment of one run: the configured credential, the outcomes
the two collaborator calls would deliver (none models a
RequestException), the formatted current time, and whether the
file-system operations of the try block in save_results_to_file
succeed. -/
structure Env where
  api_key : Option String
  resolver : Option String
  lookup : Option ApiResponse
  now : String
  ioOk : Bool
deriving DecidableEq

/-- Model of get_current_ip, lines 25 to 33 of the source: the
resolver call is attempted; on a RequestException an error message is
printed and None is returned. Exception text is abstracted. -/
def get_current_ip (env : Env) : List Event × Option String :=
  match env.resolver with
  | some ip => ([Event.netResolve], some ip)
  | none =>
      ([Event.netResolve,
        Event.printLine (Colors.RED ++ "Error getting IP address: " ++ Colors.END)], none)

/-- Model of check_ip_reputation, lines 35 to 56 of the source: the
lookup call is attempted with the given address; on a
RequestException an error message is printed and None is returned. -/
def check_ip_reputation (env : Env) (ip_address : String) : List Event × Option ApiResponse :=
  match env.lookup with
  | some r => ([Event.netLookup ip_address], some r)
  | none =>
      ([Event.netLookup ip_address,
        Event.printLine (Colors.RED ++ "Error checking IP reputation: " ++ Colors.END)], none)

/-- Model of save_results_to_file, lines 63 to 124 of the source. On
success it creates the output folder, writes the report text to
folder slash filename, and returns True after a confirmation print
only when a full report was written; the no-data branch returns
False right after writing the single line. When the try block raises
(ioOk false), the except branch prints an error and returns False;
the partially performed effects are abstracted. -/
def save_results_to_file (ip_address : String) (data : Option ApiResponse)
    (output_folder : String) (filename : String) (now : String) (ioOk : Bool) :
    List Event × Bool :=
  if ioOk then
    let filepath := output_folder ++ "/" ++ filename
    let contents := renderReport ip_address data now
    match data with
    | some { data := some _, hasOtherKeys := _ } =>
        ([Event.mkdirOutput output_folder, Event.fileWrite filepath contents,
          Event.printLine (Colors.GREEN ++ "Results saved to " ++ filepath ++ Colors.END)],
         true)
    | _ =>
        ([Event.mkdirOutput output_folder, Event.fileWrite filepath contents], false)
  else
    ([Event.printLine (Colors.RED ++ "Error saving file: " ++ Colors.END)], false)

/-- The hard-coded output folder of the source. -/
def OUTPUT_FOLDER : String := "./reports"

/-- The hard-coded output filename of the source. -/
def OUTPUT_FILENAME : String := "ip-rep-report.txt"

/-- Error guidance printed when the credential is absent, lines 142
to 144 of the source. -/
def missingKeyPrints : List Event :=
  [Event.printLine (Colors.RED ++ "Error: ABUSEIPDB_API_KEY not found in .env file" ++ Colors.END),
   Event.printLine (Colors.YELLOW ++ "Please create a .env file in the same directory with:" ++ Colors.END),
   Event.printLine "  ABUSEIPDB_API_KEY=your_api_key_here"]

/-- Model of main, lines 126 to 164 of the source, returning the
event trace and the process exit code (sys.exit(1) gives 1, normal
return gives 0). Python truthiness is rendered faithfully: an empty
credential string or an empty resolved address counts as absent, and
a falsy lookup payload takes the failure branch. The Boolean result
of save_results_to_file is discarded, exactly as at line 161 of the
source. -/
def main (env : Env) : List Event × Nat :=
  let header : List Event :=
    [Event.printLine (Colors.BOLD ++ "IP Reputation Checker" ++ Colors.END),
     Event.printLine "Powered by AbuseIPDB\n"]
  match env.api_key with
  | none => (header ++ missingKeyPrints, 1)
  | some api_key =>
      if api_key = "" then (header ++ missingKeyPrints, 1)
      else
        let pre := header ++ [Event.printLine "Getting your current IP address..."]
        match get_current_ip env with
        | (ev, none) => (pre ++ ev, 1)
        | (ev, some ip_address) =>
            if ip_address = "" then (pre ++ ev, 1)
            else
              let mid := pre ++ ev ++
                [Event.printLine ("Your IP: " ++ ip_address ++ "\n"),
                 Event.printLine "Checking IP reputation against threat database..."]
              match check_ip_reputation env ip_address with
              | (lev, none) =>
                  (mid ++ lev ++
                    [Event.printLine
                      (Colors.RED ++ "Failed to retrieve reputation data" ++ Colors.END)], 1)
              | (lev, some reputation_data) =>
                  if isTruthy reputation_data then
                    (mid ++ lev ++
                      (save_results_to_file ip_address (some reputation_data)
                        OUTPUT_FOLDER OUTPUT_FILENAME env.now env.ioOk).1, 0)
                  else
                    (mid ++ lev ++
                      [Event.printLine
                        (Colors.RED ++ "Failed to retrieve reputation data" ++ Colors.END)], 1)

/-- Exit code of the whole process, with the guard at lines 166 to
171 of the source: a KeyboardInterrupt ends the run with exit code
0. -/
def program_exit_code (env : Env) (interrupted : Bool) : Nat :=
  if interrupted then 0 else (main env).2

/-- Condition under which main reaches sys.exit(1): the credential is
absent or empty, the resolver call fails or yields an empty address,
or the lookup call fails or yields a falsy payload. The flag ioOk is
not consulted. -/
def exitsOne (env : Env) : Bool :=
  match env.api_key with
  | none => true
  | some api_key =>
      if api_key = "" then true
      else
        match env.resolver with
        | none => true
        | some ip_address =>
            if ip_address = "" then true
            else
              match env.lookup with
              | none => true
              | some r => !(isTruthy r)

/-- C1: for every integer score in the range 0 to 100, the risk
classification follows the fixed thresholds: CLEAN exactly at 0, LOW
RISK exactly on 1 to 24, MODERATE RISK exactly on 25 to 74, HIGH RISK
exactly on 75 to 100. -/
theorem classify_matches_thresholds (s : Int) (h0 : 0 ≤ s) (h100 : s ≤ 100) :
    (classify s = "CLEAN" ↔ s = 0) ∧
    (classify s = "LOW RISK" ↔ 1 ≤ s ∧ s ≤ 24) ∧
    (classify s = "MODERATE RISK" ↔ 25 ≤ s ∧ s ≤ 74) ∧
    (classify s = "HIGH RISK" ↔ 75 ≤ s ∧ s ≤ 100) := by
  unfold classify
  split_ifs with h1 h2 h3 <;>
    refine ⟨?_, ?_, ?_, ?_⟩ <;>
      constructor <;>
        intro h <;>
          first
            | rfl
            | omega
            | exact absurd h (by decide)

/-- C1 witness: the seven sample scores of the spec land in the
stated tiers, each obtained from the threshold theorem. -/
theorem classify_matches_thresholds_witness :
    classify 0 = "CLEAN" ∧ classify 1 = "LOW RISK" ∧ classify 24 = "LOW RISK" ∧
    classify 25 = "MODERATE RISK" ∧ classify 74 = "MODERATE RISK" ∧
    classify 75 = "HIGH RISK" ∧ classify 100 = "HIGH RISK" :=
  ⟨(classify_matches_thresholds 0 (by decide) (by decide)).1.mpr rfl,
   (classify_matches_thresholds 1 (by decide) (by decide)).2.1.mpr (by decide),
   (classify_matches_thresholds 24 (by decide) (by decide)).2.1.mpr (by decide),
   (classify_matches_thresholds 25 (by decide) (by decide)).2.2.1.mpr (by decide),
   (classify_matches_thresholds 74 (by decide) (by decide)).2.2.1.mpr (by decide),
   (classify_matches_thresholds 75 (by decide) (by decide)).2.2.2.mpr (by decide),
   (classify_matches_thresholds 100 (by decide) (by decide)).2.2.2.mpr (by decide)⟩

/-- C3: report rendering is deterministic. The report text is a pure
function of the address, the payload and the timestamp (the call to
datetime.now in the source is the timestamp input of the contract),
so two calls on equal inputs yield byte-identical text. -/
theorem render_deterministic (ip1 ip2 now1 now2 : String)
    (d1 d2 : Option ApiResponse)
    (hip : ip1 = ip2) (hd : d1 = d2) (hnow : now1 = now2) :
    renderReport ip1 d1 now1 = renderReport ip2 d2 now2 := by
  subst hip; subst hd; subst hnow; rfl

/-- C3 witness: two renders on the same concrete inputs agree. -/
theorem render_deterministic_witness :
    renderReport "1.2.3.4" none "2026-01-01 00:00:00" =
      renderReport "1.2.3.4" none "2026-01-01 00:00:00" :=
  render_deterministic "1.2.3.4" "1.2.3.4" "2026-01-01 00:00:00" "2026-01-01 00:00:00"
    none none rfl rfl rfl

/-- C5: whenever the payload is absent or lacks the data key, the
rendered text is exactly the single no-data line whatever the address
and timestamp are (so no risk tier appears), and save_results_to_file
reports the operation as failed by returning false. -/
theorem no_data_single_line (ip now folder fn : String)
    (payload : Option ApiResponse) (ioOk : Bool)
    (h : payload = none ∨ ∃ r, payload = some r ∧ r.data = none) :
    renderReport ip payload now = "No data received from API\n" ∧
    (save_results_to_file ip payload folder fn now ioOk).2 = false := by
  rcases h with h | ⟨r, hr, hd⟩
  · subst h
    cases ioOk <;> exact ⟨rfl, rfl⟩
  · subst hr
    obtain ⟨d, o⟩ := r
    cases hd
    cases ioOk <;> exact ⟨rfl, rfl⟩

/-- C5 witness: a payload holding only unrelated keys renders the
no-data line and the save reports failure. -/
theorem no_data_single_line_witness :
    renderReport "1.2.3.4" (some { data := none, hasOtherKeys := true })
        "2026-01-01 00:00:00" = "No data received from API\n" ∧
    (save_results_to_file "1.2.3.4" (some { data := none, hasOtherKeys := true })
        "./reports" "ip-rep-report.txt" "2026-01-01 00:00:00" true).2 = false :=
  no_data_single_line "1.2.3.4" "2026-01-01 00:00:00" "./reports" "ip-rep-report.txt"
    (some { data := none, hasOtherKeys := true }) true
    (Or.inr ⟨{ data := none, hasOtherKeys := true }, rfl, rfl⟩)

/-- C4: when the record holds a non-empty report list, the rendered
section lists exactly the first five entries in the order received,
each entry shown as its timestamp, a colon, and its category codes
stringified and comma-joined in original order; with seven entries
only the first five appear. -/
theorem reports_capped_at_five (info : ReputationInfo) (rs : List ReportEntry)
    (h : info.reports = some rs) (hne : rs ≠ []) :
    reportsSection info =
      "\nRecent Reports:\n" ++ String.join ((rs.take 5).map renderEntry) ∧
    (∀ r : ReportEntry,
      renderEntry r = "  - " ++ r.reportedAt.getD "N/A" ++ ": " ++
        String.intercalate ", " (r.categories.map toString) ++ "\n") ∧
    (∀ e1 e2 e3 e4 e5 e6 e7 : ReportEntry,
      reportsSection { info with reports := some [e1, e2, e3, e4, e5, e6, e7] } =
        "\nRecent Reports:\n" ++ String.join ([e1, e2, e3, e4, e5].map renderEntry)) := by
  refine ⟨?_, fun r => rfl, fun e1 e2 e3 e4 e5 e6 e7 => rfl⟩
  cases rs with
  | nil => exact absurd rfl hne
  | cons r rs' => simp [reportsSection, h]

/-- Record with every optional field absent. -/
def emptyInfo : ReputationInfo :=
  { abuseConfidenceScore := none, countryName := none, countryCode := none,
    isp := none, domain := none, usageType := none, totalReports := none,
    numDistinctUsers := none, lastReportedAt := none, isWhitelisted := none,
    reports := none }

/-- Sample report entry used by concrete instantiations. -/
def entrySample (n : Int) : ReportEntry :=
  { reportedAt := some (toString n), categories := [n, n + 1] }

/-- Seven sample report entries. -/
def rsSeven : List ReportEntry :=
  [entrySample 1, entrySample 2, entrySample 3, entrySample 4,
   entrySample 5, entrySample 6, entrySample 7]

/-- Record holding the seven sample entries. -/
def infoSeven : ReputationInfo := { emptyInfo with reports := some rsSeven }

/-- C4 witness: the record with seven sample entries renders the
first five of them. -/
theorem reports_capped_at_five_witness :
    reportsSection infoSeven =
      "\nRecent Reports:\n" ++ String.join ((rsSeven.take 5).map renderEntry) :=
  (reports_capped_at_five infoSeven rsSeven rfl (by decide)).1

/-- Substitution of the documented default for every absent optional
field: score 0, countryName, isp and usageType Unknown, countryCode
and domain N/A, totalReports and numDistinctUsers 0, lastReportedAt
Never, isWhitelisted false. -/
def applyDefaults (info : ReputationInfo) : ReputationInfo :=
  { abuseConfidenceScore := some (info.abuseConfidenceScore.getD 0),
    countryName := some (info.countryName.getD "Unknown"),
    countryCode := some (info.countryCode.getD "N/A"),
    isp := some (info.isp.getD "Unknown"),
    domain := some (info.domain.getD "N/A"),
    usageType := some (info.usageType.getD "Unknown"),
    totalReports := some (info.totalReports.getD 0),
    numDistinctUsers := some (info.numDistinctUsers.getD 0),
    lastReportedAt := some (info.lastReportedAt.getD "Never"),
    isWhitelisted := some (info.isWhitelisted.getD false),
    reports := info.reports }

/-- C6: the renderer treats every record exactly as the record with
each absent optional field replaced by its documented default, for
any combination of absent fields, so each default is substituted
independently. -/
theorem missing_fields_use_defaults (ip now : String) (info : ReputationInfo) :
    renderInfo ip info now = renderInfo ip (applyDefaults info) now := rfl

/-- Sample fully-populated reputation record. -/
def infoSample : ReputationInfo :=
  { abuseConfidenceScore := some 42, countryName := some "Testland",
    countryCode := some "TL", isp := some "TestISP", domain := some "test.example",
    usageType := some "Data Center", totalReports := some 3,
    numDistinctUsers := some 2, lastReportedAt := some "2025-12-01 10:00:00",
    isWhitelisted := some false, reports := none }

/-- Run in which both collaborator calls succeed with a full record
but the file write raises. -/
def envFailedWrite : Env :=
  { api_key := some "key", resolver := some "1.2.3.4",
    lookup := some { data := some infoSample, hasOtherKeys := false },
    now := "2026-01-01 00:00:00", ioOk := false }

/-- C2 counterexample: in a run whose only failure is the file write,
the process exits with code 0, not 1; main discards the Boolean
result of save_results_to_file. -/
theorem exit_code_zero_on_failed_write :
    envFailedWrite.ioOk = false ∧ (main envFailedWrite).2 = 0 := ⟨rfl, rfl⟩

/-- C2 amended: the process exits with code 1 exactly when the
credential is absent or empty, the resolver call fails or yields an
empty address, or the lookup call fails or yields a falsy payload;
it exits with code 0 otherwise, in particular also when the file
write fails or the payload lacks the data key, because main discards
the result of save_results_to_file; an interrupt exits with code
0. -/
theorem exit_code_amended (env : Env) :
    program_exit_code env true = 0 ∧
    (main env).2 = (if exitsOne env then 1 else 0) := by
  refine ⟨rfl, ?_⟩
  obtain ⟨k, r, l, n, io⟩ := env
  cases k with
  | none => rfl
  | some key =>
      by_cases hk : key = ""
      · simp [main, exitsOne, hk]
      · cases r with
        | none => simp [main, exitsOne, hk, get_current_ip]
        | some ip =>
            by_cases hip : ip = ""
            · simp [main, exitsOne, hk, hip, get_current_ip]
            · cases l with
              | none =>
                  simp [main, exitsOne, hk, hip, get_current_ip, check_ip_reputation]
              | some resp =>
                  cases htr : isTruthy resp <;>
                    simp [main, exitsOne, hk, hip, htr, get_current_ip,
                      check_ip_reputation]

/-- C8: when the credential is absent the process exits with code 1
and the trace holds no network event, neither the resolver call nor
the lookup call. -/
theorem missing_key_no_network (env : Env) (h : env.api_key = none) :
    (main env).2 = 1 ∧ networkCalls (main env).1 = [] := by
  obtain ⟨k, r, l, n, io⟩ := env
  cases k with
  | none => exact ⟨rfl, rfl⟩
  | some key => simp at h

/-- Run with no credential configured. -/
def envNoKey : Env :=
  { api_key := none, resolver := some "1.2.3.4",
    lookup := some { data := some infoSample, hasOtherKeys := false },
    now := "2026-01-01 00:00:00", ioOk := true }

/-- C8 witness: the concrete run without a credential exits with code
1 and attempts no network call. -/
theorem missing_key_no_network_witness :
    (main envNoKey).2 = 1 ∧ networkCalls (main envNoKey).1 = [] :=
  missing_key_no_network envNoKey rfl

/-- Helper: when the lookup call fails, the trace holds no
file-system event and the run exits with code 1. -/
theorem lookup_none_no_fs (env : Env) (hl : env.lookup = none) :
    fsEvents (main env).1 = [] ∧ (main env).2 = 1 := by
  obtain ⟨k, r, l, n, io⟩ := env
  cases l with
  | some x => simp at hl
  | none =>
      cases k with
      | none => exact ⟨rfl, rfl⟩
      | some key =>
          by_cases hk : key = ""
          · simp [main, fsEvents, missingKeyPrints, isFsEvent, hk]
          · cases r with
            | none => simp [main, fsEvents, get_current_ip, isFsEvent, hk]
            | some ip =>
                by_cases hip : ip = ""
                · simp [main, fsEvents, get_current_ip, isFsEvent, hk, hip]
                · simp [main, fsEvents, get_current_ip, check_ip_reputation,
                    isFsEvent, hk, hip]

/-- Helper: when the lookup call delivers a falsy payload, main takes
the failure branch: no file-system event, exit code 1. -/
theorem lookup_falsy_no_fs (env : Env) (r : ApiResponse)
    (hl : env.lookup = some r) (htr : isTruthy r = false) :
    fsEvents (main env).1 = [] ∧ (main env).2 = 1 := by
  obtain ⟨k, rr, l, n, io⟩ := env
  cases l with
  | none => simp at hl
  | some resp =>
      simp at hl
      subst hl
      cases k with
      | none => exact ⟨rfl, rfl⟩
      | some key =>
          by_cases hk : key = ""
          · simp [main, fsEvents, missingKeyPrints, isFsEvent, hk]
          · cases rr with
            | none => simp [main, fsEvents, get_current_ip, isFsEvent, hk]
            | some ip =>
                by_cases hip : ip = ""
                · simp [main, fsEvents, get_current_ip, isFsEvent, hk, hip]
                · simp [main, fsEvents, get_current_ip, check_ip_reputation,
                    isFsEvent, hk, hip, htr]

/-- Helper: when the payload is truthy but lacks the data key and the
file system cooperates, the run writes exactly the single no-data
file and the save reports failure. -/
theorem data_missing_writes_nodata (env : Env) (key ip : String) (r : ApiResponse)
    (hkey : env.api_key = some key) (hk : key ≠ "")
    (hip : env.resolver = some ip) (hipne : ip ≠ "")
    (hl : env.lookup = some r) (htr : isTruthy r = true) (hd : r.data = none)
    (hio : env.ioOk = true) :
    writtenFiles (main env).1 =
      [(OUTPUT_FOLDER ++ "/" ++ OUTPUT_FILENAME, "No data received from API\n")] ∧
    (save_results_to_file ip (some r) OUTPUT_FOLDER OUTPUT_FILENAME env.now true).2 = false := by
  obtain ⟨k, rr, l, n, io⟩ := env
  simp at hkey hip hl hio
  subst hkey; subst hip; subst hl; subst hio
  obtain ⟨d, o⟩ := r
  simp at hd
  subst hd
  simp [isTruthy] at htr
  subst htr
  simp [main, get_current_ip, check_ip_reputation, isTruthy, save_results_to_file,
    renderReport, writtenFiles, fileWriteOf, hk, hipne]

/-- C7 amended: when the lookup call fails no file is touched at all
and the run exits with code 1; when the lookup succeeds with a truthy
payload lacking the data key, the single no-data report is still
written and save_results_to_file returns false; but a falsy payload,
such as the empty JSON object, is treated like a failed lookup: no
file is written and the run exits with code 1. -/
theorem network_vs_data_writes (env : Env) :
    (env.lookup = none → fsEvents (main env).1 = [] ∧ (main env).2 = 1) ∧
    (∀ key ip r, env.api_key = some key → key ≠ "" →
        env.resolver = some ip → ip ≠ "" →
        env.lookup = some r → isTruthy r = true → r.data = none → env.ioOk = true →
        writtenFiles (main env).1 =
          [(OUTPUT_FOLDER ++ "/" ++ OUTPUT_FILENAME, "No data received from API\n")] ∧
        (save_results_to_file ip (some r) OUTPUT_FOLDER OUTPUT_FILENAME
            env.now true).2 = false) ∧
    (∀ r, env.lookup = some r → isTruthy r = false →
        fsEvents (main env).1 = [] ∧ (main env).2 = 1) :=
  ⟨fun hl => lookup_none_no_fs env hl,
   fun key ip r hkey hk hip hipne hl htr hd hio =>
     data_missing_writes_nodata env key ip r hkey hk hip hipne hl htr hd hio,
   fun r hl htr => lookup_falsy_no_fs env r hl htr⟩

/-- Run in which the lookup succeeds with a payload that has keys but
no data key. -/
def envDataMissing : Env :=
  { api_key := some "key", resolver := some "1.2.3.4",
    lookup := some { data := none, hasOtherKeys := true },
    now := "2026-01-01 00:00:00", ioOk := true }

/-- C7 witness: the concrete run whose payload lacks the data key
writes exactly the no-data file and the save reports failure. -/
theorem network_vs_data_writes_witness :
    writtenFiles (main envDataMissing).1 =
      [(OUTPUT_FOLDER ++ "/" ++ OUTPUT_FILENAME, "No data received from API\n")] ∧
    (save_results_to_file "1.2.3.4" (some { data := none, hasOtherKeys := true })
        OUTPUT_FOLDER OUTPUT_FILENAME envDataMissing.now true).2 = false :=
  (network_vs_data_writes envDataMissing).2.1 "key" "1.2.3.4"
    { data := none, hasOtherKeys := true } rfl (by decide) rfl (by decide)
    rfl rfl rfl rfl

/-- Run in which the lookup succeeds with the empty JSON object. -/
def envEmptyPayload : Env :=
  { api_key := some "key", resolver := some "1.2.3.4",
    lookup := some { data := none, hasOtherKeys := false },
    now := "2026-01-01 00:00:00", ioOk := true }

/-- C7 counterexample: the empty JSON object is a successful lookup
whose payload lacks the expected shape, yet no report file is written
and the run exits with code 1, because main tests the payload for
truthiness. -/
theorem empty_payload_no_report_written :
    writtenFiles (main envEmptyPayload).1 = [] ∧ (main envEmptyPayload).2 = 1 :=
  ⟨rfl, rfl⟩

/-- C9 counterexample: save_results_to_file, the function holding the
rendering logic, performs a file write itself on an ordinary call: its
trace holds exactly one file-write event. -/
theorem save_performs_file_write :
    (writtenFiles (save_results_to_file "1.2.3.4"
        (some { data := some infoSample, hasOtherKeys := false })
        "./reports" "ip-rep-report.txt" "2026-01-01 00:00:00" true).1).length = 1 :=
  rfl

/-- C9 amended: formatting and persistence are blended in the source:
whenever its file operations succeed, save_results_to_file itself
writes exactly one file, at folder slash filename, whose contents are
the pure render of the inputs; the caller performs no write. -/
theorem save_writes_render_output (ip folder fn now : String)
    (payload : Option ApiResponse) :
    writtenFiles (save_results_to_file ip payload folder fn now true).1 =
      [(folder ++ "/" ++ fn, renderReport ip payload now)] := by
  cases payload with
  | none => rfl
  | some r =>
      obtain ⟨d, o⟩ := r
      cases d <;> rfl

/-- C10: save_results_to_file returns true exactly when its file
operations succeed and the payload carries a data object; under a
cooperating file system, an absent payload or one lacking the data
key yields false right after the single no-data line is written; and
a raised exception yields false. -/
theorem save_result_iff_full_report (ip folder fn now : String)
    (payload : Option ApiResponse) (ioOk : Bool) :
    ((save_results_to_file ip payload folder fn now ioOk).2 = true ↔
      ioOk = true ∧ ∃ r info, payload = some r ∧ r.data = some info) ∧
    (ioOk = true → (payload = none ∨ ∃ r, payload = some r ∧ r.data = none) →
      (save_results_to_file ip payload folder fn now ioOk).2 = false ∧
      writtenFiles (save_results_to_file ip payload folder fn now ioOk).1 =
        [(folder ++ "/" ++ fn, "No data received from API\n")]) ∧
    (ioOk = false → (save_results_to_file ip payload folder fn now ioOk).2 = false) := by
  cases ioOk with
  | false =>
      refine ⟨?_, ?_, fun _ => rfl⟩
      · simp [save_results_to_file]
      · intro h; cases h
  | true =>
      cases payload with
      | none =>
          refine ⟨?_, fun _ _ => ⟨rfl, rfl⟩, ?_⟩
          · simp [save_results_to_file]
          · intro h; cases h
      | some r =>
          obtain ⟨d, o⟩ := r
          cases d with
          | none =>
              refine ⟨?_, fun _ _ => ⟨rfl, rfl⟩, ?_⟩
              · simp [save_results_to_file]
              · intro h; cases h
          | some info =>
              refine ⟨?_, ?_, ?_⟩
              · simp [save_results_to_file]
              · rintro _ (h | ⟨rr, hrr, hd⟩)
                · cases h
                · cases hrr
                  simp at hd
              · intro h; cases h

/-- C10 witness: a concrete payload lacking the data key makes the
save return false after writing the no-data line, per the second
conjunct of the result theorem. -/
theorem save_result_iff_full_report_witness :
    (save_results_to_file "1.2.3.4" (some { data := none, hasOtherKeys := true })
        "./reports" "ip-rep-report.txt" "2026-01-01 00:00:00" true).2 = false ∧
    writtenFiles (save_results_to_file "1.2.3.4"
        (some { data := none, hasOtherKeys := true })
        "./reports" "ip-rep-report.txt" "2026-01-01 00:00:00" true).1 =
      [("./reports" ++ "/" ++ "ip-rep-report.txt", "No data received from API\n")] :=
  (save_result_iff_full_report "1.2.3.4" "./reports" "ip-rep-report.txt"
      "2026-01-01 00:00:00" (some { data := none, hasOtherKeys := true }) true).2.1
    rfl (Or.inr ⟨{ data := none, hasOtherKeys := true }, rfl, rfl⟩)

end IpRepChecker
